import Mathlib

/-!
Shallow embedding of the client dashboard script `src/static/js/app.js`
(net-rate decomposition tool) and verification of its specified behaviour.

Modelling conventions:
* JS numbers that take part in arithmetic are modelled as `ℚ`.
* DOM elements are records of class lists and child nodes.
* Browser clock values (`Date.now()`, `new Date()`) are passed explicitly.
* The local timezone is taken to be UTC, so `toISOString` of a local
  midnight `Date` renders exactly that civil date.
-/

/-! ## Waterfall chart (createWaterfallChart, lines 99-233) -/

/-- The `data.drivers` object consumed by `createWaterfallChart`. -/
structure Drivers where
  payer_mix : ℚ
  allowed_rates : ℚ
  units_per_visit : ℚ
  cpt_mix : ℚ
  copay_leakage : ℚ
  writeoffs_denials : ℚ
  operational_leakage : ℚ
  documentation_issues : ℚ
deriving DecidableEq

/-- The `RateDecomposition` record passed to `createWaterfallChart`. -/
structure RateDecomposition where
  start_net_rate : ℚ
  end_net_rate : ℚ
  drivers : Drivers
deriving DecidableEq

/-- One element of the `chartData` array: `{x, y: [lo, hi], backgroundColor}`. -/
structure Segment where
  x : Nat
  lo : ℚ
  hi : ℚ
  backgroundColor : String
deriving DecidableEq

def anchorColor : String := "#007bff"

def increaseColor : String := "#28a745"

def decreaseColor : String := "#dc3545"

/-- The slice `values[1..8]` of the `values` array built at lines 119-130:
the eight driver contributions in their fixed canonical order. -/
def driverValues (d : Drivers) : List ℚ :=
  [d.payer_mix, d.allowed_rates, d.units_per_visit, d.cpt_mix,
   d.copay_leakage, d.writeoffs_denials, d.operational_leakage,
   d.documentation_issues]

/-- The `for` loop at lines 140-151: one segment per driver value, each
spanning `[cumulative, cumulative + change]`, coloured by the sign of
`change`, with the running cumulative threaded through. -/
def waterfallLoop (i : Nat) (cumulative : ℚ) : List ℚ → List Segment
  | [] => []
  | change :: rest =>
      { x := i, lo := cumulative, hi := cumulative + change,
        backgroundColor := if change ≥ 0 then increaseColor else decreaseColor } ::
      waterfallLoop (i + 1) (cumulative + change) rest

/-- The `chartData` array computed by `createWaterfallChart` (lines 132-158):
a start anchor bar `[0, start_net_rate]`, the eight driver delta bars, and
an end anchor bar `[0, end_net_rate]` at index `labels.length - 1 = 9`. -/
def createWaterfallChartData (data : RateDecomposition) : List Segment :=
  ({ x := 0, lo := 0, hi := data.start_net_rate, backgroundColor := anchorColor } ::
    waterfallLoop 1 data.start_net_rate (driverValues data.drivers)) ++
  [{ x := 9, lo := 0, hi := data.end_net_rate, backgroundColor := anchorColor }]

/-- The running cumulative after the first `i` drivers have been applied. -/
def cumulativeAfter (data : RateDecomposition) (i : Nat) : ℚ :=
  data.start_net_rate + ((driverValues data.drivers).take i).sum

/-- C1: if `start_net_rate` plus the sum of the 8 driver values equals
`end_net_rate`, the running cumulative after the last driver — the upper
bound of the segment at index 8 — equals `end_net_rate`. -/
theorem c1_waterfall_last_cumulative (d : RateDecomposition)
    (h : d.start_net_rate + (driverValues d.drivers).sum = d.end_net_rate) :
    (createWaterfallChartData d)[8]?.map Segment.hi = some d.end_net_rate := by
  simp only [createWaterfallChartData, driverValues, waterfallLoop] at *
  simp only [List.sum_cons, List.sum_nil] at h
  simp [← h]
  ring

/-- Witness for C1 at a concrete decomposition. -/
theorem c1_waterfall_last_cumulative_witness :
    (createWaterfallChartData
        ⟨100, 108, ⟨1, 2, 3, 4, -1, -2, 5, -4⟩⟩)[8]?.map Segment.hi =
      some (108 : ℚ) :=
  c1_waterfall_last_cumulative ⟨100, 108, ⟨1, 2, 3, 4, -1, -2, 5, -4⟩⟩ (by norm_num [driverValues])

/-- C3: for each driver position `i ∈ 1..8`, the segment at index `i` spans
`[old cumulative, old cumulative + driver value]` and is coloured
`increaseColor` when the driver value is `≥ 0` (zero included) and
`decreaseColor` when it is negative. -/
theorem c3_driver_segment_span_and_color (d : RateDecomposition) (i : Nat)
    (h1 : 1 ≤ i) (h8 : i ≤ 8) :
    (createWaterfallChartData d)[i]? =
      some { x := i,
             lo := cumulativeAfter d (i - 1),
             hi := cumulativeAfter d (i - 1) +
               ((driverValues d.drivers).getD (i - 1) 0),
             backgroundColor :=
               if ((driverValues d.drivers).getD (i - 1) 0) ≥ 0 then
                 increaseColor
               else decreaseColor } := by
  interval_cases i <;>
    simp [createWaterfallChartData, waterfallLoop, driverValues,
      cumulativeAfter, Segment.mk.injEq] <;> ring

/-- Witness for C3 at a concrete decomposition and position. -/
theorem c3_driver_segment_span_and_color_witness :
    (createWaterfallChartData
        ⟨100, 108, ⟨1, 2, 3, 4, -1, -2, 5, -4⟩⟩)[5]? =
      some { x := 5,
             lo := cumulativeAfter ⟨100, 108, ⟨1, 2, 3, 4, -1, -2, 5, -4⟩⟩ 4,
             hi := cumulativeAfter ⟨100, 108, ⟨1, 2, 3, 4, -1, -2, 5, -4⟩⟩ 4 +
               ((driverValues ⟨1, 2, 3, 4, -1, -2, 5, -4⟩).getD 4 0),
             backgroundColor :=
               if ((driverValues ⟨1, 2, 3, 4, -1, -2, 5, -4⟩).getD 4 0) ≥ 0 then
                 increaseColor
               else decreaseColor } :=
  c3_driver_segment_span_and_color ⟨100, 108, ⟨1, 2, 3, 4, -1, -2, 5, -4⟩⟩ 5
    (by norm_num) (by norm_num)

/-- C4: the first segment spans `[0, start_net_rate]`, the last (index 9)
segment spans `[0, end_net_rate]` — both anchored at zero — and both carry
the anchor colour, which differs from the increase and decrease colours. -/
theorem c4_anchor_segments (d : RateDecomposition) :
    (createWaterfallChartData d)[0]? =
        some { x := 0, lo := 0, hi := d.start_net_rate,
               backgroundColor := anchorColor } ∧
    (createWaterfallChartData d)[9]? =
        some { x := 9, lo := 0, hi := d.end_net_rate,
               backgroundColor := anchorColor } ∧
    anchorColor ≠ increaseColor ∧ anchorColor ≠ decreaseColor := by
  refine ⟨rfl, ?_, by decide, by decide⟩
  simp [createWaterfallChartData, waterfallLoop, driverValues]

/-! ## Loading state (setLoadingState, lines 82-96) -/

/-- A child node, described by its class list (`className` split on spaces). -/
structure DomNode where
  className : List String
deriving DecidableEq

/-- A DOM element: its own class list plus its direct children. -/
structure DomElement where
  classes : List String
  children : List DomNode
deriving DecidableEq

/-- Model of `element.classList.add(c)`: appends `c` unless already present. -/
def classListAdd (cs : List String) (c : String) : List String :=
  if c ∈ cs then cs else cs ++ [c]

/-- Model of `element.classList.remove(c)`: drops every occurrence of `c`. -/
def classListRemove (cs : List String) (c : String) : List String :=
  cs.filter (· != c)

/-- The spinner `div` created at lines 85-87. -/
def spinnerNode : DomNode :=
  ⟨["spinner-border", "spinner-border-sm", "me-2"]⟩

/-- Whether a node matches the selector `.spinner-border`. -/
def isSpinner (n : DomNode) : Bool :=
  n.className.contains "spinner-border"

/-- Model of `element.querySelector(".spinner-border")` followed by `remove()`:
removes the first matching child, if any. -/
def removeFirstSpinner : List DomNode → List DomNode
  | [] => []
  | n :: rest => if isSpinner n then rest else n :: removeFirstSpinner rest

/-- The function `setLoadingState(element, isLoading)`: when loading, add the `loading`
class and prepend a fresh spinner (`insertBefore(spinner, firstChild)`,
unconditionally); otherwise remove the class and the first spinner child. -/
def setLoadingState (element : DomElement) (isLoading : Bool) : DomElement :=
  if isLoading then
    { classes := classListAdd element.classes "loading",
      children := spinnerNode :: element.children }
  else
    { classes := classListRemove element.classes "loading",
      children := removeFirstSpinner element.children }

/-- Number of spinner children attached to an element. -/
def spinnerCount (element : DomElement) : Nat :=
  (element.children.filter isSpinner).length

/-- C2: evaluation at the failing input. Starting from an element with no
children, two consecutive `setLoadingState(el, true)` calls leave two
spinner children, not one: the code prepends a spinner unconditionally,
with no guard against an existing one. -/
theorem c2_duplicate_spinners :
    spinnerCount (setLoadingState (setLoadingState ⟨[], []⟩ true) true) = 2 ∧
    spinnerCount (setLoadingState (setLoadingState ⟨[], []⟩ true) true) ≠ 1 := by
  constructor <;> decide

/-! ## Decimal rendering helpers (model of JS number-to-string and Intl) -/

/-- The decimal digit character for `n % 10`. -/
def digitChar (n : Nat) : Char :=
  Char.ofNat (48 + n % 10)

/-- Decimal digits of `n`, most significant first (fuelled recursion;
`n + 1` units of fuel always suffice). -/
def natDigitsAux : Nat → Nat → List Char
  | 0, _ => []
  | fuel + 1, n =>
      if n < 10 then [digitChar n]
      else natDigitsAux fuel (n / 10) ++ [digitChar n]

def natDigits (n : Nat) : List Char :=
  natDigitsAux (n + 1) n

/-- Model of JS `Number.prototype.toString` on a nonnegative integer. -/
def natToString (n : Nat) : String :=
  String.mk (natDigits n)

/-- Insert en-US thousands separators: input and output are digit lists in
reversed (least-significant-first) order. -/
def groupRev : List Char → List Char
  | a :: b :: c :: d :: rest => a :: b :: c :: ',' :: groupRev (d :: rest)
  | l => l

/-- Decimal rendering of `n` with en-US thousands grouping. -/
def groupDigits (n : Nat) : String :=
  String.mk (groupRev (natDigits n).reverse).reverse

/-- Rounding half away from zero, the default Intl rounding mode. -/
def roundHalfExpand (q : ℚ) : Int :=
  if q < 0 then -(Rat.floor (-q + 1 / 2)) else Rat.floor (q + 1 / 2)

/-- Model of `Intl.NumberFormat("en-US", {style: "percent",
minimumFractionDigits: 1, maximumFractionDigits: 1}).format(x)`:
multiplies by 100 and renders with exactly one fraction digit and a
trailing percent sign. -/
def intlFormatPercent1 (x : ℚ) : String :=
  (if roundHalfExpand (x * 100 * 10) < 0 then "-" else "") ++
  groupDigits ((roundHalfExpand (x * 100 * 10)).natAbs / 10) ++ "." ++
  String.mk [digitChar ((roundHalfExpand (x * 100 * 10)).natAbs % 10)] ++ "%"

/-- The function `formatPercent` (lines 20-26): divides the percentage-point input by
100, then formats with the percent style above. -/
def formatPercent (value : ℚ) : String :=
  intlFormatPercent1 (value / 100)

/-- Rounding half away from zero fixes every integer. -/
theorem roundHalfExpand_intCast (n : ℤ) : roundHalfExpand (n : ℚ) = n := by
  have hfl : ∀ q : ℚ, Rat.floor q = ⌊q⌋ := fun _ => rfl
  unfold roundHalfExpand
  rcases lt_or_le (n : ℚ) 0 with h | h
  · rw [if_pos h, hfl]
    have : -(n : ℚ) = ((-n : ℤ) : ℚ) := by push_cast; ring
    rw [this, Int.floor_int_add]
    norm_num
  · rw [if_neg (not_lt.mpr h), hfl, Int.floor_int_add]
    norm_num

/-- C6: `formatPercent` divides by 100 and formats as an en-US percent
string with exactly 1 fraction digit; in particular
`formatPercent(12.3) = "12.3%"`. -/
theorem c6_formatPercent (value : ℚ) :
    formatPercent value = intlFormatPercent1 (value / 100) ∧
    formatPercent (123 / 10) = "12.3%" := by
  refine ⟨rfl, ?_⟩
  show intlFormatPercent1 (123 / 10 / 100) = "12.3%"
  unfold intlFormatPercent1
  rw [show (123 / 10 / 100 * 100 * 10 : ℚ) = ((123 : ℤ) : ℚ) by norm_num,
    roundHalfExpand_intCast]
  decide

/-! ## API requests (apiRequest, lines 29-41) -/

/-- Outcome of `fetch(url)` together with the subsequent `response.json()`
parse attempt, as supplied by the environment for the requested URL:
either a response with an HTTP status and a JSON parse result for its
body, or a transport-level failure. `α` is the parsed JSON value type. -/
inductive FetchOutcome (α : Type) where
  | resp (status : Nat) (jsonResult : Except String α)
  | networkError (message : String)

/-- Observable side effects of `apiRequest` beyond its returned value. -/
inductive Effect where
  | consoleError
  | showError (message : String)
deriving DecidableEq

/-- Model of `response.ok`: HTTP status in the 200-299 range. -/
def fetchOk (status : Nat) : Bool :=
  200 ≤ status && status ≤ 299

/-- The message of the error thrown at line 33. -/
def httpErrorMessage (status : Nat) : String :=
  "HTTP error! status: " ++ natToString status

/-- The effects of the catch block at lines 36-40. -/
def failureEffects : List Effect :=
  [.consoleError, .showError "Failed to load data. Please try again."]

/-- The function `apiRequest(url)`: resolves with the parsed JSON body on a success
status; on a non-success status throws an error carrying the status code;
any failure (HTTP, transport, JSON parse) runs the catch block — console
log plus the fixed alert — and is then re-thrown to the caller. -/
def apiRequest {α : Type} : FetchOutcome α → Except String α × List Effect
  | .networkError e => (.error e, failureEffects)
  | .resp status jsonResult =>
      if fetchOk status then
        match jsonResult with
        | .ok v => (.ok v, [])
        | .error e => (.error e, failureEffects)
      else (.error (httpErrorMessage status), failureEffects)

/-- C7: non-success statuses raise an error carrying the status code; every
failure (HTTP, transport, JSON parse) triggers the fixed alert and is
re-raised unchanged; a success status resolves with the parsed body. -/
theorem c7_apiRequest_error_handling {α : Type} (status : Nat)
    (jsonResult : Except String α) (e : String) :
    (fetchOk status = false →
      apiRequest (.resp status jsonResult) =
        (.error (httpErrorMessage status), failureEffects)) ∧
    (∀ v, fetchOk status = true → jsonResult = .ok v →
      apiRequest (.resp status jsonResult) = (.ok v, [])) ∧
    (∀ msg, fetchOk status = true → jsonResult = .error msg →
      apiRequest (.resp status jsonResult) = (.error msg, failureEffects)) ∧
    apiRequest (.networkError e : FetchOutcome α) = (.error e, failureEffects) := by
  refine ⟨fun h => ?_, fun v h hv => ?_, fun msg h hm => ?_, rfl⟩
  · simp [apiRequest, h]
  · subst hv; simp [apiRequest, h]
  · subst hm; simp [apiRequest, h]

/-- Witness for C7: a 404 response, a 200 response with a good body, a 200
response with a malformed body, and a transport failure. -/
theorem c7_apiRequest_error_handling_witness :
    apiRequest (.resp 404 (.ok 0) : FetchOutcome Nat) =
      (.error (httpErrorMessage 404), failureEffects) ∧
    apiRequest (.resp 200 (.ok 5) : FetchOutcome Nat) = (.ok 5, []) ∧
    apiRequest (.resp 200 (.error "bad json") : FetchOutcome Nat) =
      (.error "bad json", failureEffects) ∧
    apiRequest (.networkError "net down" : FetchOutcome Nat) =
      (.error "net down", failureEffects) :=
  ⟨(c7_apiRequest_error_handling 404 (.ok 0) "").1 (by decide),
   (c7_apiRequest_error_handling 200 (.ok 5) "").2.1 5 (by decide) rfl,
   (c7_apiRequest_error_handling 200 (.error "bad json") "").2.2.1 "bad json"
     (by decide) rfl,
   (c7_apiRequest_error_handling 404 (.error "" : Except String Nat)
     "net down").2.2.2⟩

/-! ## Date ranges (getDateRange, lines 236-261)

The local timezone is modelled as UTC, so `toISOString().split("T")[0]` of
a `Date` built from local civil components renders those very components;
dates are therefore carried as civil (year, month, day) triples rather
than as rendered strings. -/

/-- A civil calendar date; `month` is 1-based. -/
structure CivilDate where
  year : Int
  month : Nat
  day : Nat
deriving DecidableEq

/-- Gregorian leap-year rule, as implemented by JS `Date`. -/
def isLeapYear (y : Int) : Bool :=
  y % 4 = 0 && (y % 100 ≠ 0 || y % 400 = 0)

def daysInMonth (y : Int) (m : Nat) : Nat :=
  match m with
  | 2 => if isLeapYear y then 29 else 28
  | 4 | 6 | 9 | 11 => 30
  | _ => 31

/-- A real calendar date, as produced by the platform clock. -/
def ValidDate (d : CivilDate) : Prop :=
  1 ≤ d.month ∧ d.month ≤ 12 ∧ 1 ≤ d.day ∧ d.day ≤ daysInMonth d.year d.month

instance (d : CivilDate) : Decidable (ValidDate d) := by
  unfold ValidDate; infer_instance

/-- Model of `new Date(y, mIdx, day)` for `1 ≤ day ≤ 31` (every call site
in `getDateRange` satisfies this): JS floor-divides an out-of-range month
index into the year, and a day past the end of the resulting month rolls
into the following month — at most one month ahead when `day ≤ 31`. -/
def jsMkDate (y mIdx : Int) (day : Nat) : CivilDate :=
  let y2 := y + Int.fdiv mIdx 12
  let m0 := (Int.fmod mIdx 12).toNat
  let dim := daysInMonth y2 (m0 + 1)
  if day ≤ dim then ⟨y2, m0 + 1, day⟩
  else if m0 = 11 then ⟨y2 + 1, 1, day - dim⟩
  else ⟨y2, m0 + 2, day - dim⟩

/-- The function `getDateRange(period)` evaluated with the clock reading `today`:
returns the `{startDate, endDate}` pair as civil dates. `endDate` is
always today; `startDate` follows the `switch` at lines 241-258. -/
def getDateRange (period : String) (today : CivilDate) : CivilDate × CivilDate :=
  let mIdx : Int := (today.month : Int) - 1
  let startDate :=
    if period = "mtd" then jsMkDate today.year mIdx 1
    else if period = "qtd" then jsMkDate today.year (mIdx / 3 * 3) 1
    else if period = "ytd" then jsMkDate today.year 0 1
    else if period = "last_month" then jsMkDate today.year (mIdx - 1) 1
    else jsMkDate (today.year - 1) mIdx today.day
  (startDate, today)

/-- Helper: `Int.fdiv` by 12 vanishes on `0 ≤ a < 12`. -/
theorem fdiv_twelve_eq_zero {a : Int} (h0 : 0 ≤ a) (h : a < 12) :
    Int.fdiv a 12 = 0 := by
  rw [Int.fdiv_eq_ediv _ (by norm_num)]; omega

/-- Helper: `Int.fmod` by 12 is the identity on `0 ≤ a < 12`. -/
theorem fmod_twelve_eq_self {a : Int} (h0 : 0 ≤ a) (h : a < 12) :
    Int.fmod a 12 = a := by
  rw [Int.fmod_eq_emod _ (by norm_num)]; omega

/-- C5 counterexample: on 2024-02-29 (a real calendar date), the default
branch builds `new Date(2023, 1, 29)`, which JS rolls over to 2023-03-01:
the month and day do not equal the current month and day. -/
theorem c5_counterexample :
    ValidDate ⟨2024, 2, 29⟩ ∧
    ¬ ((getDateRange "all_time" (⟨2024, 2, 29⟩ : CivilDate)).1.month =
          (⟨2024, 2, 29⟩ : CivilDate).month ∧
       (getDateRange "all_time" (⟨2024, 2, 29⟩ : CivilDate)).1.day =
          (⟨2024, 2, 29⟩ : CivilDate).day) ∧
    (getDateRange "all_time" (⟨2024, 2, 29⟩ : CivilDate)).1 = ⟨2023, 3, 1⟩ := by
  refine ⟨by decide, by decide, by decide⟩

/-- C5 amended: with the local clock modelled as UTC, on any real calendar
date other than a February 29, an unrecognized period yields endDate =
today and a startDate with the same month and day and the year decremented
by one. (On Feb 29 the claim fails: see the counterexample.) -/
theorem c5_default_range_amended (period : String) (today : CivilDate)
    (hv : ValidDate today)
    (h1 : period ≠ "mtd") (h2 : period ≠ "qtd") (h3 : period ≠ "ytd")
    (h4 : period ≠ "last_month")
    (hfeb : ¬(today.month = 2 ∧ today.day = 29)) :
    getDateRange period today =
      (⟨today.year - 1, today.month, today.day⟩, today) := by
  obtain ⟨y, m, d⟩ := today
  obtain ⟨hm1, hm2, hd1, hd2⟩ := hv
  dsimp only at hm1 hm2 hd1 hd2 hfeb ⊢
  simp only [getDateRange]
  rw [if_neg h1, if_neg h2, if_neg h3, if_neg h4]
  simp only [Prod.mk.injEq]
  refine ⟨?_, trivial⟩
  have hge : (0 : Int) ≤ (m : Int) - 1 := by omega
  have hlt : ((m : Int) - 1) < 12 := by omega
  simp only [jsMkDate, fdiv_twelve_eq_zero hge hlt,
    fmod_twelve_eq_self hge hlt, add_zero]
  have hm0 : ((m : Int) - 1).toNat = m - 1 := by omega
  rw [hm0]
  have hmm : m - 1 + 1 = m := by omega
  rw [hmm]
  by_cases he : m = 2
  · subst he
    have hd29 : d ≠ 29 := fun h => hfeb ⟨rfl, h⟩
    have hd28 : d ≤ 28 := by
      simp only [daysInMonth] at hd2
      by_cases hl : isLeapYear y <;> simp [hl] at hd2 <;> omega
    have hdim : d ≤ daysInMonth (y - 1) 2 := by
      simp only [daysInMonth]
      by_cases hl : isLeapYear (y - 1) <;> simp [hl] <;> omega
    rw [if_pos hdim]
  · interval_cases m <;> simp_all [daysInMonth]

/-- Witness for C5 (amended) on 2024-03-15 with an unrecognized period. -/
theorem c5_default_range_amended_witness :
    getDateRange "trailing_year" ⟨2024, 3, 15⟩ =
      (⟨2023, 3, 15⟩, ⟨2024, 3, 15⟩) :=
  c5_default_range_amended "trailing_year" ⟨2024, 3, 15⟩ (by decide)
    (by decide) (by decide) (by decide) (by decide) (by decide)

/-! ## JS values and objects -/

/-- A JS value as it appears in this script: strings, (integer) numbers,
booleans. -/
inductive JsValue where
  | str (s : String)
  | num (n : Int)
  | bool (b : Bool)
deriving DecidableEq

/-- A JS object: key-value pairs in property order (keys unique). -/
abbrev JsObject := List (String × JsValue)

/-- Property read `obj[key]`: `none` plays the role of `undefined`. -/
def getProp : JsObject → String → Option JsValue
  | [], _ => none
  | (k, v) :: rest, key => if k = key then some v else getProp rest key

/-- Property write, as performed by an object literal `{...obj, key: v}`:
an existing key keeps its position and gets the new value; a new key is
appended. -/
def setProp : JsObject → String → JsValue → JsObject
  | [], key, v => [(key, v)]
  | (k, w) :: rest, key, v =>
      if k = key then (key, v) :: rest else (k, w) :: setProp rest key v

theorem getProp_setProp_same (o : JsObject) (k : String) (v : JsValue) :
    getProp (setProp o k v) k = some v := by
  induction o with
  | nil => simp [setProp, getProp]
  | cons p rest ih =>
      obtain ⟨pk, pv⟩ := p
      by_cases h : pk = k
      · subst h; simp [setProp, getProp]
      · simp [setProp, getProp, h, ih]

theorem getProp_setProp_other (o : JsObject) (k k' : String) (v : JsValue)
    (h : k' ≠ k) : getProp (setProp o k v) k' = getProp o k' := by
  have h' : ¬ k = k' := fun hh => h hh.symm
  induction o with
  | nil => simp [setProp, getProp, h']
  | cons p rest ih =>
      obtain ⟨pk, pv⟩ := p
      by_cases hp : pk = k
      · subst hp
        simp [setProp, getProp, h']
      · simp [setProp, getProp, hp, ih]

/-! ## Timestamps (Date.now, new Date().toISOString) -/

/-- A clock reading, in local civil components (timezone modelled as UTC). -/
structure DateTime where
  year : Nat
  month : Nat
  day : Nat
  hour : Nat
  minute : Nat
  second : Nat
  ms : Nat
deriving DecidableEq

def pad2 (n : Nat) : List Char :=
  [digitChar (n / 10), digitChar n]

def pad3 (n : Nat) : List Char :=
  [digitChar (n / 100), digitChar (n / 10), digitChar n]

def pad4 (n : Nat) : List Char :=
  [digitChar (n / 1000), digitChar (n / 100), digitChar (n / 10), digitChar n]

/-- Model of `new Date().toISOString()` for years 0-9999:
`YYYY-MM-DDTHH:MM:SS.mmmZ`. -/
def jsToISOString (t : DateTime) : String :=
  String.mk (pad4 t.year ++ '-' :: pad2 t.month ++ '-' :: pad2 t.day ++
    'T' :: pad2 t.hour ++ ':' :: pad2 t.minute ++ ':' :: pad2 t.second ++
    '.' :: pad3 t.ms ++ ['Z'])

/-- Structural check that a string is a well-formed ISO-8601 UTC timestamp
of the shape `YYYY-MM-DDTHH:MM:SS.mmmZ`. -/
def isValidISO8601 (s : String) : Bool :=
  match s.data with
  | [y1, y2, y3, y4, s1, m1, m2, s2, d1, d2, t, h1, h2, c1, n1, n2, c2,
     e1, e2, p, f1, f2, f3, z] =>
      y1.isDigit && y2.isDigit && y3.isDigit && y4.isDigit && s1 == '-' &&
      m1.isDigit && m2.isDigit && s2 == '-' && d1.isDigit && d2.isDigit &&
      t == 'T' && h1.isDigit && h2.isDigit && c1 == ':' && n1.isDigit &&
      n2.isDigit && c2 == ':' && e1.isDigit && e2.isDigit && p == '.' &&
      f1.isDigit && f2.isDigit && f3.isDigit && z == 'Z'
  | _ => false

theorem digitChar_isDigit (n : Nat) : (digitChar n).isDigit = true := by
  have h : n % 10 < 10 := Nat.mod_lt _ (by norm_num)
  unfold digitChar
  revert h
  generalize n % 10 = k
  intro h
  interval_cases k <;> decide

theorem isValidISO8601_jsToISOString (t : DateTime) :
    isValidISO8601 (jsToISOString t) = true := by
  simp [jsToISOString, isValidISO8601, pad4, pad3, pad2, digitChar_isDigit]

/-! ## Tracked items (getTrackedItems / addTrackedItem / removeTrackedItem,
lines 264-285)

The persisted store is the value under the single `trackedItems` key:
`none` when absent, otherwise the JSON-decoded array (the
`JSON.stringify`/`JSON.parse` round trip is modelled as the identity).
The mutating operations return the updated list together with the updated
store. -/

/-- The function `getTrackedItems()`: the decoded array, or `[]` when the key is absent. -/
def getTrackedItems (store : Option (List JsObject)) : List JsObject :=
  store.getD []

/-- The record pushed by `addTrackedItem`:
`{...item, id: Date.now().toString(), dateAdded: new Date().toISOString()}`. -/
def newTrackedRecord (nowMs : Nat) (now : DateTime) (item : JsObject) :
    JsObject :=
  setProp (setProp item "id" (.str (natToString nowMs))) "dateAdded"
    (.str (jsToISOString now))

/-- The function `addTrackedItem(item)` with the clock reading `nowMs` / `now`. -/
def addTrackedItem (nowMs : Nat) (now : DateTime) (item : JsObject)
    (store : Option (List JsObject)) :
    List JsObject × Option (List JsObject) :=
  let items := getTrackedItems store ++ [newTrackedRecord nowMs now item]
  (items, some items)

/-- The function `removeTrackedItem(id)`: keeps the items whose `id` differs. -/
def removeTrackedItem (id : String) (store : Option (List JsObject)) :
    List JsObject × Option (List JsObject) :=
  let filtered := (getTrackedItems store).filter
    (fun item => getProp item "id" != some (.str id))
  (filtered, some filtered)

/-- A nonnegative JS number renders to a nonempty decimal string. -/
theorem natToString_ne_empty (n : Nat) : natToString n ≠ "" := by
  intro hc
  have hd : natDigits n = [] := congrArg String.data hc
  rcases Nat.lt_or_ge n 10 with h10 | h10 <;>
    simp [natDigits, natDigitsAux, h10, Nat.not_lt.mpr] at hd

/-- C8: from an empty store, adding `{name:"x"}` then listing yields
exactly one record with a nonempty `id` and a `dateAdded` that is a valid
ISO-8601 timestamp; removing that id then listing yields the empty
sequence. Holds for every clock reading. -/
theorem c8_tracked_items_lifecycle (nowMs : Nat) (now : DateTime) :
    ∃ rec idStr dateStr,
      (addTrackedItem nowMs now [("name", JsValue.str "x")] none).1 = [rec] ∧
      getTrackedItems
        (addTrackedItem nowMs now [("name", JsValue.str "x")] none).2 = [rec] ∧
      getProp rec "id" = some (.str idStr) ∧
      idStr ≠ "" ∧
      getProp rec "dateAdded" = some (.str dateStr) ∧
      isValidISO8601 dateStr = true ∧
      getTrackedItems (removeTrackedItem idStr
        (addTrackedItem nowMs now [("name", JsValue.str "x")] none).2).2 = [] := by
  have hne : ("id" : String) ≠ "dateAdded" := by decide
  have hid : getProp (newTrackedRecord nowMs now [("name", JsValue.str "x")])
      "id" = some (.str (natToString nowMs)) := by
    unfold newTrackedRecord
    rw [getProp_setProp_other _ _ _ _ hne, getProp_setProp_same]
  have hdate : getProp (newTrackedRecord nowMs now [("name", JsValue.str "x")])
      "dateAdded" = some (.str (jsToISOString now)) := by
    unfold newTrackedRecord
    rw [getProp_setProp_same]
  refine ⟨newTrackedRecord nowMs now [("name", JsValue.str "x")],
    natToString nowMs, jsToISOString now, rfl, rfl, hid,
    natToString_ne_empty nowMs, hdate, isValidISO8601_jsToISOString now, ?_⟩
  simp [removeTrackedItem, getTrackedItems, addTrackedItem, hid]

/-- C10: the pushed record always carries `id = Date.now().toString()` and
`dateAdded = new Date().toISOString()`, overwriting any caller-supplied
values under those two keys, while every other key of the caller item is
preserved unchanged. -/
theorem c10_add_overwrites_id_dateAdded (nowMs : Nat) (now : DateTime)
    (item : JsObject) (store : Option (List JsObject)) :
    (addTrackedItem nowMs now item store).1 =
      getTrackedItems store ++ [newTrackedRecord nowMs now item] ∧
    getProp (newTrackedRecord nowMs now item) "id" =
      some (.str (natToString nowMs)) ∧
    getProp (newTrackedRecord nowMs now item) "dateAdded" =
      some (.str (jsToISOString now)) ∧
    ∀ k, k ≠ "id" → k ≠ "dateAdded" →
      getProp (newTrackedRecord nowMs now item) k = getProp item k := by
  have hne : ("id" : String) ≠ "dateAdded" := by decide
  refine ⟨rfl, ?_, ?_, ?_⟩
  · unfold newTrackedRecord
    rw [getProp_setProp_other _ _ _ _ hne, getProp_setProp_same]
  · unfold newTrackedRecord
    rw [getProp_setProp_same]
  · intro k hk1 hk2
    unfold newTrackedRecord
    rw [getProp_setProp_other _ _ _ _ hk2, getProp_setProp_other _ _ _ _ hk1]

/-- Witness for C10: a caller item that already carries `id`, `dateAdded`
and one further key; the two stamped keys are overwritten and the third is
preserved. -/
theorem c10_add_overwrites_id_dateAdded_witness :
    getProp (newTrackedRecord 1710000000000 ⟨2024, 3, 15, 10, 20, 30, 123⟩
        [("id", JsValue.str "old"), ("dateAdded", JsValue.str "old-date"),
         ("note", JsValue.num 7)]) "id" =
      some (.str (natToString 1710000000000)) ∧
    getProp (newTrackedRecord 1710000000000 ⟨2024, 3, 15, 10, 20, 30, 123⟩
        [("id", JsValue.str "old"), ("dateAdded", JsValue.str "old-date"),
         ("note", JsValue.num 7)]) "dateAdded" =
      some (.str (jsToISOString ⟨2024, 3, 15, 10, 20, 30, 123⟩)) ∧
    getProp (newTrackedRecord 1710000000000 ⟨2024, 3, 15, 10, 20, 30, 123⟩
        [("id", JsValue.str "old"), ("dateAdded", JsValue.str "old-date"),
         ("note", JsValue.num 7)]) "note" =
      getProp [("id", JsValue.str "old"), ("dateAdded", JsValue.str "old-date"),
         ("note", JsValue.num 7)] "note" := by
  obtain ⟨-, h2, h3, h4⟩ := c10_add_overwrites_id_dateAdded 1710000000000
    ⟨2024, 3, 15, 10, 20, 30, 123⟩
    [("id", JsValue.str "old"), ("dateAdded", JsValue.str "old-date"),
     ("note", JsValue.num 7)] none
  exact ⟨h2, h3, h4 "note" (by decide) (by decide)⟩

/-! ## CSV export (convertToCSV / exportToCSV, lines 288-315) -/

/-- JS rendering of an integer number to a string. -/
def intToString (n : Int) : String :=
  if n < 0 then "-" ++ natToString n.natAbs else natToString n.natAbs

/-- JS string conversion of a value, as performed by `Array.join`. -/
def jsValueToString : JsValue → String
  | .str s => s
  | .num n => intToString n
  | .bool b => if b then "true" else "false"

/-- One cell as built at line 310 and stringified by `join(",")`:
strings are wrapped by the template literal, other values are rendered
raw; an absent field (`undefined`) renders as the empty string. -/
def csvCell : Option JsValue → String
  | some (.str s) => "\"" ++ s ++ "\""
  | some v => jsValueToString v
  | none => ""

/-- The function `convertToCSV(data)` (lines 301-315): empty input gives the empty
string; otherwise the keys of the first record joined by commas, then one
line per record, all joined by newlines. -/
def convertToCSV : List JsObject → String
  | [] => ""
  | first :: rest =>
      String.intercalate "\n"
        (String.intercalate "," (first.map Prod.fst) ::
          (first :: rest).map (fun row =>
            String.intercalate ","
              ((first.map Prod.fst).map (fun h => csvCell (getProp row h)))))

/-- The CSV content handed to the `Blob` by `exportToCSV(data, filename)`
(line 289); the download side effect itself is outside the model. -/
def exportToCSVContent (data : List JsObject) (_filename : String) : String :=
  convertToCSV data

/-- Reference field encoding, following the specification text: wrapped in
double quotes exactly when the value is textual, raw otherwise, with no
escaping of embedded quotes, commas, or newlines. -/
def specWrapField : JsValue → String
  | .str s => "\"" ++ s ++ "\""
  | v => jsValueToString v

/-- Reference CSV encoding, following the specification text: the first
record's keys joined by commas, then one line per record of
`specWrapField`-encoded fields, all lines joined by newlines; empty input
gives the empty string. -/
def referenceCSV : List JsObject → String
  | [] => ""
  | first :: rest =>
      String.intercalate "\n"
        (String.intercalate "," (first.map Prod.fst) ::
          (first :: rest).map (fun row =>
            String.intercalate ","
              ((first.map Prod.fst).map (fun k =>
                specWrapField ((getProp row k).getD (.str ""))))))

/-- C9: on uniform records (every record has every key of the first),
`convertToCSV` coincides with the reference encoding, and the concrete
instance `exportToCSV([{a:1,b:"x"}], "f.csv")` produces `a,b\n1,"x"`. -/
theorem c9_convertToCSV_reference (data : List JsObject)
    (h : ∀ row ∈ data, ∀ k ∈ (data.headD []).map Prod.fst,
      (getProp row k).isSome = true) :
    convertToCSV data = referenceCSV data ∧
    convertToCSV [[("a", JsValue.num 1), ("b", JsValue.str "x")]] =
      "a,b\n1,\"x\"" ∧
    exportToCSVContent [[("a", JsValue.num 1), ("b", JsValue.str "x")]]
      "f.csv" = "a,b\n1,\"x\"" := by
  refine ⟨?_, by decide, by decide⟩
  cases data with
  | nil => rfl
  | cons first rest =>
      simp only [convertToCSV, referenceCSV]
      congr 1
      congr 1
      refine List.map_congr_left (fun row hrow => ?_)
      congr 1
      refine List.map_congr_left (fun k hk => ?_)
      have hs := h row hrow k hk
      cases hv : getProp row k with
      | none => rw [hv] at hs; simp at hs
      | some v => cases v <;> rfl

/-- Witness for C9 at the uniform two-column instance from the spec. -/
theorem c9_convertToCSV_reference_witness :
    convertToCSV [[("a", JsValue.num 1), ("b", JsValue.str "x")]] =
      referenceCSV [[("a", JsValue.num 1), ("b", JsValue.str "x")]] ∧
    convertToCSV [[("a", JsValue.num 1), ("b", JsValue.str "x")]] =
      "a,b\n1,\"x\"" :=
  ⟨(c9_convertToCSV_reference [[("a", JsValue.num 1), ("b", JsValue.str "x")]]
      (by decide)).1,
   (c9_convertToCSV_reference [[("a", JsValue.num 1), ("b", JsValue.str "x")]]
      (by decide)).2.1⟩
